import Mathlib

/-!
Python.h of the GraalPython C extension layer: a model of its macros.

The header `com.oracle.graal.python.cext/include/Python.h` defines three groups
of function-like macros:

* `Py_INCREF(o)` and `Py_DECREF(o)` (lines 124-128), both with replacement list `0`;
* `PyTruffle_Err_Format_0` .. `PyTruffle_Err_Format_10` (lines 148-158), each a call
  of the extern function `PyTruffle_Err_Format` declared at line 147;
* `ARG_PARSE_ERR_FORMAT_IMPL` and `PyErr_Format` (lines 159-163), which pick one of the
  eleven entry points by the number of arguments written at the call site.

Macro arguments are sequences of preprocessing tokens; a function-like macro is
embedded as a function from its arguments to its replacement.  Arguments are
taken as the preprocessor hands them to the macro: already split at the top-level
commas of the invocation.
-/

namespace PythonH

/-! ## Tokens and arguments -/

/-- A preprocessing token. -/
inductive Tok where
  /-- an identifier or keyword -/
  | ident (name : String)
  /-- an integer constant -/
  | num (n : Nat)
  /-- a punctuator, written as in the source text -/
  | punct (text : String)
  /-- a string literal, given by its contents -/
  | str (text : String)
  deriving DecidableEq, Repr

/-- A macro argument: the tokens between two top-level commas of an invocation. -/
abbrev Arg := List Tok

/-! ## The operands of the emitted call -/

/-- The shapes an operand takes in the replacement lists of lines 148-158. -/
inductive Operand where
  /-- a parameter substituted as it stands: `EXC`, `FORMAT` -/
  | verbatim (a : Arg)
  /-- an integer constant written in the replacement list: `0` .. `10` -/
  | intLit (n : Nat)
  /-- the padding operand written `NULL` -/
  | null
  /-- the text `(void*)(V)` -/
  | castParen (v : Arg)
  /-- the text `(void*)V` -/
  | castBare (v : Arg)
  deriving DecidableEq, Repr

/-- The tokens an operand stands for. -/
def Operand.tokens : Operand → List Tok
  | .verbatim a => a
  | .intLit n => [Tok.num n]
  | .null => [Tok.ident "NULL"]
  | .castParen v =>
      [Tok.punct "(", Tok.ident "void", Tok.punct "*", Tok.punct ")", Tok.punct "("] ++ v
        ++ [Tok.punct ")"]
  | .castBare v => [Tok.punct "(", Tok.ident "void", Tok.punct "*", Tok.punct ")"] ++ v

/-- The caller's argument an operand is built from, if any. -/
def Operand.carried : Operand → Option Arg
  | .verbatim a => some a
  | .castParen v => some v
  | .castBare v => some v
  | .intLit _ => none
  | .null => none

/-- A function call expression: the callee's name and the operands in order. -/
structure CallExpr where
  callee : String
  operands : List Operand
  deriving DecidableEq, Repr

/-- Line 147: `PyTruffle_Err_Format(exception, fmt, s, v0, .., v9)`, the extern function with
thirteen parameters.  Its body is not part of the header; a call of it is kept as syntax. -/
def PyTruffle_Err_Format (exception fmt s v0 v1 v2 v3 v4 v5 v6 v7 v8 v9 : Operand) : CallExpr :=
  ⟨"PyTruffle_Err_Format", [exception, fmt, s, v0, v1, v2, v3, v4, v5, v6, v7, v8, v9]⟩

/-- The first operand of a call (`exception`). -/
def CallExpr.exc (c : CallExpr) : Option Operand := c.operands[0]?

/-- The second operand of a call (`fmt`). -/
def CallExpr.fmt (c : CallExpr) : Option Operand := c.operands[1]?

/-- The third operand of a call (`s`, the count). -/
def CallExpr.count (c : CallExpr) : Option Operand := c.operands[2]?

/-- The value slots of a call: the operands after `exception`, `fmt` and `s`. -/
def CallExpr.slots (c : CallExpr) : List Operand := c.operands.drop 3

/-- Value slot `i`, counted from 1 as the macro parameters `V1` .. `V10` are. -/
def CallExpr.slot (c : CallExpr) (i : Nat) : Option Operand :=
  if i = 0 then none else c.slots[i - 1]?

/-! ## Lines 148-158: the eleven fixed-arity entry points -/

/-- Line 148. -/
def PyTruffle_Err_Format_0 (EXC FORMAT : Arg) : CallExpr :=
  PyTruffle_Err_Format (.verbatim EXC) (.verbatim FORMAT) (.intLit 0)
    .null .null .null .null .null .null .null .null .null .null

/-- Line 149. -/
def PyTruffle_Err_Format_1 (EXC FORMAT V1 : Arg) : CallExpr :=
  PyTruffle_Err_Format (.verbatim EXC) (.verbatim FORMAT) (.intLit 1)
    (.castParen V1) .null .null .null .null .null .null .null .null .null

/-- Line 150. -/
def PyTruffle_Err_Format_2 (EXC FORMAT V1 V2 : Arg) : CallExpr :=
  PyTruffle_Err_Format (.verbatim EXC) (.verbatim FORMAT) (.intLit 2)
    (.castParen V1) (.castParen V2) .null .null .null .null .null .null .null .null

/-- Line 151. -/
def PyTruffle_Err_Format_3 (EXC FORMAT V1 V2 V3 : Arg) : CallExpr :=
  PyTruffle_Err_Format (.verbatim EXC) (.verbatim FORMAT) (.intLit 3)
    (.castParen V1) (.castParen V2) (.castParen V3) .null .null .null .null .null .null .null

/-- Line 152. -/
def PyTruffle_Err_Format_4 (EXC FORMAT V1 V2 V3 V4 : Arg) : CallExpr :=
  PyTruffle_Err_Format (.verbatim EXC) (.verbatim FORMAT) (.intLit 4)
    (.castParen V1) (.castParen V2) (.castParen V3) (.castParen V4) .null .null .null .null .null .null

/-- Line 153. -/
def PyTruffle_Err_Format_5 (EXC FORMAT V1 V2 V3 V4 V5 : Arg) : CallExpr :=
  PyTruffle_Err_Format (.verbatim EXC) (.verbatim FORMAT) (.intLit 5)
    (.castParen V1) (.castParen V2) (.castParen V3) (.castParen V4) (.castParen V5)
    .null .null .null .null .null

/-- Line 154. -/
def PyTruffle_Err_Format_6 (EXC FORMAT V1 V2 V3 V4 V5 V6 : Arg) : CallExpr :=
  PyTruffle_Err_Format (.verbatim EXC) (.verbatim FORMAT) (.intLit 6)
    (.castParen V1) (.castParen V2) (.castParen V3) (.castParen V4) (.castParen V5) (.castParen V6)
    .null .null .null .null

/-- Line 155. -/
def PyTruffle_Err_Format_7 (EXC FORMAT V1 V2 V3 V4 V5 V6 V7 : Arg) : CallExpr :=
  PyTruffle_Err_Format (.verbatim EXC) (.verbatim FORMAT) (.intLit 7)
    (.castParen V1) (.castParen V2) (.castParen V3) (.castParen V4) (.castParen V5) (.castParen V6)
    (.castParen V7) .null .null .null

/-- Line 156. -/
def PyTruffle_Err_Format_8 (EXC FORMAT V1 V2 V3 V4 V5 V6 V7 V8 : Arg) : CallExpr :=
  PyTruffle_Err_Format (.verbatim EXC) (.verbatim FORMAT) (.intLit 8)
    (.castParen V1) (.castParen V2) (.castParen V3) (.castParen V4) (.castParen V5) (.castParen V6)
    (.castParen V7) (.castParen V8) .null .null

/-- Line 157. -/
def PyTruffle_Err_Format_9 (EXC FORMAT V1 V2 V3 V4 V5 V6 V7 V8 V9 : Arg) : CallExpr :=
  PyTruffle_Err_Format (.verbatim EXC) (.verbatim FORMAT) (.intLit 9)
    (.castParen V1) (.castParen V2) (.castParen V3) (.castParen V4) (.castParen V5) (.castParen V6)
    (.castParen V7) (.castParen V8) (.castParen V9) .null

/-- Line 158.  The last operand is written `(void*)V10`, without parentheses around `V10`. -/
def PyTruffle_Err_Format_10 (EXC FORMAT V1 V2 V3 V4 V5 V6 V7 V8 V9 V10 : Arg) : CallExpr :=
  PyTruffle_Err_Format (.verbatim EXC) (.verbatim FORMAT) (.intLit 10)
    (.castParen V1) (.castParen V2) (.castParen V3) (.castParen V4) (.castParen V5) (.castParen V6)
    (.castParen V7) (.castParen V8) (.castParen V9) (.castBare V10)

/-! ## Lines 159-163: selection of an entry point by argument count -/

/-- Line 159: `ARG_PARSE_ERR_FORMAT_IMPL(_0, .., _10, NAME, ...)` with replacement list `NAME`.
Twelve named parameters are followed by `...`; an invocation with fewer than twelve
arguments is diagnosed by the preprocessor (`none`).  The variable part may be empty, as
the compilers this header is built with accept. -/
def ARG_PARSE_ERR_FORMAT_IMPL : List Arg → Option Arg
  | _ :: _ :: _ :: _ :: _ :: _ :: _ :: _ :: _ :: _ :: _ :: NAME :: _ => some NAME
  | _ => none

/-- The arguments that the text of `__VA_ARGS__` contributes where the replacement list
writes it next to a comma (`__VA_ARGS__, ...` and `EXC, __VA_ARGS__`).  With no variable
argument at all the text is empty, which reads as one empty argument. -/
def vaArgs (VA_ARGS : List Arg) : List Arg :=
  if VA_ARGS.isEmpty then [[]] else VA_ARGS

/-- The eleven names that line 163 writes after `__VA_ARGS__`, from `PyTruffle_Err_Format_10`
down to `PyTruffle_Err_Format_0`, each one argument of a single identifier. -/
def entryPointNames : List Arg :=
  [[Tok.ident "PyTruffle_Err_Format_10"], [Tok.ident "PyTruffle_Err_Format_9"],
   [Tok.ident "PyTruffle_Err_Format_8"], [Tok.ident "PyTruffle_Err_Format_7"],
   [Tok.ident "PyTruffle_Err_Format_6"], [Tok.ident "PyTruffle_Err_Format_5"],
   [Tok.ident "PyTruffle_Err_Format_4"], [Tok.ident "PyTruffle_Err_Format_3"],
   [Tok.ident "PyTruffle_Err_Format_2"], [Tok.ident "PyTruffle_Err_Format_1"],
   [Tok.ident "PyTruffle_Err_Format_0"]]

/-- The name of the entry point of arity `k`. -/
def entryPointName (k : Nat) : String :=
  match k with
  | 0 => "PyTruffle_Err_Format_0"
  | 1 => "PyTruffle_Err_Format_1"
  | 2 => "PyTruffle_Err_Format_2"
  | 3 => "PyTruffle_Err_Format_3"
  | 4 => "PyTruffle_Err_Format_4"
  | 5 => "PyTruffle_Err_Format_5"
  | 6 => "PyTruffle_Err_Format_6"
  | 7 => "PyTruffle_Err_Format_7"
  | 8 => "PyTruffle_Err_Format_8"
  | 9 => "PyTruffle_Err_Format_9"
  | 10 => "PyTruffle_Err_Format_10"
  | _ => ""

/-- The dispatch of line 163 on its own: `ARG_PARSE_ERR_FORMAT_IMPL` applied to the variable
arguments followed by the eleven names. -/
def dispatch (VA_ARGS : List Arg) : Option Arg :=
  ARG_PARSE_ERR_FORMAT_IMPL (vaArgs VA_ARGS ++ entryPointNames)

/-- Line 163: `PyErr_Format(EXC, ...)`.  Its replacement list is the selected `NAME` followed
by `(EXC, __VA_ARGS__)`; the result is that name with the argument list it is applied to,
before the name itself is looked at again. -/
def PyErr_Format (EXC : Arg) (VA_ARGS : List Arg) : Option (Arg × List Arg) :=
  (dispatch VA_ARGS).map fun NAME => (NAME, EXC :: vaArgs VA_ARGS)

/-! ## Lines 124-128: the reference count operations -/

/-- Line 126: `#define Py_DECREF(o) 0`. -/
def Py_DECREF (_o : Arg) : List Tok := [Tok.num 0]

/-- Line 128: `#define Py_INCREF(o) 0`. -/
def Py_INCREF (_o : Arg) : List Tok := [Tok.num 0]

/-! ## Rescanning: the function-like macros of this header -/

/-- What a function-like macro of this header is replaced by. -/
inductive Replacement where
  /-- plain tokens (`Py_INCREF`, `Py_DECREF`) -/
  | tokens (ts : List Tok)
  /-- a call expression (the entry points) -/
  | call (c : CallExpr)
  deriving DecidableEq, Repr

/-- The function-like macros the header defines that can be met when the selected name is
rescanned, by name.  Each takes the arguments of the invocation and gives `none` when their
number differs from the number of parameters, which the preprocessor diagnoses.
`ARG_PARSE_ERR_FORMAT_IMPL` and `PyErr_Format` are not listed: both are under replacement
at that point and are not replaced again. -/
def headerFunctionLike : String → Option (List Arg → Option Replacement)
  | "Py_DECREF" => some fun
      | [o] => some (.tokens (Py_DECREF o))
      | _ => none
  | "Py_INCREF" => some fun
      | [o] => some (.tokens (Py_INCREF o))
      | _ => none
  | "PyTruffle_Err_Format_0" => some fun
      | [EXC, FORMAT] => some (.call (PyTruffle_Err_Format_0 EXC FORMAT))
      | _ => none
  | "PyTruffle_Err_Format_1" => some fun
      | [EXC, FORMAT, V1] => some (.call (PyTruffle_Err_Format_1 EXC FORMAT V1))
      | _ => none
  | "PyTruffle_Err_Format_2" => some fun
      | [EXC, FORMAT, V1, V2] => some (.call (PyTruffle_Err_Format_2 EXC FORMAT V1 V2))
      | _ => none
  | "PyTruffle_Err_Format_3" => some fun
      | [EXC, FORMAT, V1, V2, V3] => some (.call (PyTruffle_Err_Format_3 EXC FORMAT V1 V2 V3))
      | _ => none
  | "PyTruffle_Err_Format_4" => some fun
      | [EXC, FORMAT, V1, V2, V3, V4] =>
          some (.call (PyTruffle_Err_Format_4 EXC FORMAT V1 V2 V3 V4))
      | _ => none
  | "PyTruffle_Err_Format_5" => some fun
      | [EXC, FORMAT, V1, V2, V3, V4, V5] =>
          some (.call (PyTruffle_Err_Format_5 EXC FORMAT V1 V2 V3 V4 V5))
      | _ => none
  | "PyTruffle_Err_Format_6" => some fun
      | [EXC, FORMAT, V1, V2, V3, V4, V5, V6] =>
          some (.call (PyTruffle_Err_Format_6 EXC FORMAT V1 V2 V3 V4 V5 V6))
      | _ => none
  | "PyTruffle_Err_Format_7" => some fun
      | [EXC, FORMAT, V1, V2, V3, V4, V5, V6, V7] =>
          some (.call (PyTruffle_Err_Format_7 EXC FORMAT V1 V2 V3 V4 V5 V6 V7))
      | _ => none
  | "PyTruffle_Err_Format_8" => some fun
      | [EXC, FORMAT, V1, V2, V3, V4, V5, V6, V7, V8] =>
          some (.call (PyTruffle_Err_Format_8 EXC FORMAT V1 V2 V3 V4 V5 V6 V7 V8))
      | _ => none
  | "PyTruffle_Err_Format_9" => some fun
      | [EXC, FORMAT, V1, V2, V3, V4, V5, V6, V7, V8, V9] =>
          some (.call (PyTruffle_Err_Format_9 EXC FORMAT V1 V2 V3 V4 V5 V6 V7 V8 V9))
      | _ => none
  | "PyTruffle_Err_Format_10" => some fun
      | [EXC, FORMAT, V1, V2, V3, V4, V5, V6, V7, V8, V9, V10] =>
          some (.call (PyTruffle_Err_Format_10 EXC FORMAT V1 V2 V3 V4 V5 V6 V7 V8 V9 V10))
      | _ => none
  | _ => none

/-- The entry point of arity `k` applied to an argument list, `none` when `k` is not 0..10 or
the number of arguments is not `k + 2`. -/
def entryPoint (k : Nat) (args : List Arg) : Option CallExpr :=
  match headerFunctionLike (entryPointName k) with
  | some m =>
      match m args with
      | some (.call c) => some c
      | _ => none
  | none => none

/-- The outcome of expanding a `PyErr_Format` invocation completely. -/
inductive Expansion where
  /-- the preprocessor diagnoses the invocation -/
  | error
  /-- a macro of this header was invoked; `pre` are the tokens in front of its name -/
  | replaced (pre : List Tok) (r : Replacement)
  /-- no macro of this header is invoked: the text `head(args)` is left to the compiler -/
  | applied (head : Arg) (args : List Arg)
  deriving DecidableEq, Repr

/-- Rescan of `NAME(args)`: when the token in front of the parenthesis names a function-like
macro of this header, that macro is invoked with `args`; otherwise the text stays as it is. -/
def rescan (NAME : Arg) (args : List Arg) : Expansion :=
  match NAME.getLast? with
  | some (Tok.ident f) =>
      match headerFunctionLike f with
      | some m =>
          match m args with
          | some r => .replaced NAME.dropLast r
          | none => .error
      | none => .applied NAME args
  | _ => .applied NAME args

/-- Complete expansion of `PyErr_Format(EXC, ...)`. -/
def expandPyErr_Format (EXC : Arg) (VA_ARGS : List Arg) : Expansion :=
  match PyErr_Format EXC VA_ARGS with
  | some (NAME, args) => rescan NAME args
  | none => .error

/-- Line 147 declares the function `PyTruffle_Err_Format` with thirteen parameters.  A text
`head(args)` left to the compiler is a call of that function with as many arguments as the
declaration has parameters when `head` is that one identifier and there are thirteen `args`. -/
def callsDeclaredFunction : Expansion → Bool
  | .applied [Tok.ident f] args => f == "PyTruffle_Err_Format" && args.length == 13
  | _ => false

/-! ## Evaluation of an expression statement -/

/-- Value and effect of an expression on a program state of type `σ`.  An integer constant
has its value and leaves the state alone; every other expression is code of the caller, whose
effect and value `sem` gives. -/
def evalExpr {σ : Type} (sem : List Tok → σ → σ × Int) : List Tok → σ → σ × Int
  | [Tok.num n], s => (s, (n : Int))
  | e, s => sem e s

/-- An expression used as a statement: evaluated for its effect, the value dropped. -/
def execStmt {σ : Type} (sem : List Tok → σ → σ × Int) (e : List Tok) (s : σ) : σ :=
  (evalExpr sem e s).1

/-- The two reference count operations a caller can write on a handle. -/
inductive LifecycleOp where
  /-- the statement `Py_INCREF(h);` -/
  | acquire
  /-- the statement `Py_DECREF(h);` -/
  | release_ref
  deriving DecidableEq, Repr

/-- The replacement of the statement's macro invocation. -/
def LifecycleOp.expansion : LifecycleOp → Arg → List Tok
  | .acquire, h => Py_INCREF h
  | .release_ref, h => Py_DECREF h

/-- A sequence of `Py_INCREF(h);` / `Py_DECREF(h);` statements run in order from state `s`. -/
def runLifecycle {σ : Type} (sem : List Tok → σ → σ × Int) (h : Arg) (ops : List LifecycleOp)
    (s : σ) : σ :=
  ops.foldl (fun st op => execStmt sem (op.expansion h) st) s

/-! ## The handle table -/

/-- The failure of the handle table. -/
inductive BridgeError where
  | InvalidHandle
  deriving DecidableEq, Repr

/-- A handle as the table issues it. -/
abbrev Handle := Nat

/-- Modelled from the spec: a Handle Table Entry, which the header does not define.  It maps
a surrogate handle to the host-managed object it stands for and a liveness flag. -/
structure Entry (Obj : Type) where
  object : Obj
  live : Bool
  deriving DecidableEq, Repr

/-- Modelled from the spec: the Handle Table, missing from the header (which only names
`truffle_is_handle_to_managed` and `truffle_managed_from_handle` in a comment).  Entry `h` of
the list belongs to handle `h`. -/
structure HandleTable (Obj : Type) where
  entries : List (Entry Obj)
  deriving DecidableEq, Repr

/-- Modelled from the spec: the table at bridge initialisation, with no handle issued. -/
def HandleTable.empty (Obj : Type) : HandleTable Obj := ⟨[]⟩

/-- Modelled from the spec: `register(object) -> handle`, missing from the header.  A new
live entry is created for the object and its handle returned with the new table; repeated
requests for one object get different handles, which the spec permits. -/
def register {Obj : Type} (t : HandleTable Obj) (o : Obj) : Handle × HandleTable Obj :=
  (t.entries.length, ⟨t.entries ++ [⟨o, true⟩]⟩)

/-- Modelled from the spec: `resolve(handle) -> object`, missing from the header.  It returns
the managed object of a previously issued handle and fails with `InvalidHandle` if the handle
was never issued or has been released. -/
def resolve {Obj : Type} (t : HandleTable Obj) (h : Handle) : Except BridgeError Obj :=
  match t.entries[h]? with
  | some e => if e.live then .ok e.object else .error .InvalidHandle
  | none => .error .InvalidHandle

/-- Modelled from the spec: `release(handle)`, missing from the header.  It marks the handle
invalid for future resolution; the object itself is not touched. -/
def release {Obj : Type} (t : HandleTable Obj) (h : Handle) : HandleTable Obj :=
  ⟨t.entries.modify (fun e => ⟨e.object, false⟩) h⟩

/-! ## Concrete call sites -/

/-- The argument `PyExc_TypeError`. -/
def PyExc_TypeError : Arg := [Tok.ident "PyExc_TypeError"]

/-- The format string `"expected %s, got %s"`. -/
def expectedGot : Arg := [Tok.str "expected %s, got %s"]

/-- The argument `"int"`. -/
def strInt : Arg := [Tok.str "int"]

/-- The argument `"str"`. -/
def strStr : Arg := [Tok.str "str"]

/-- The argument `p`. -/
def argP : Arg := [Tok.ident "p"]

/-- The compound argument `p + 1`. -/
def pPlusOne : Arg := [Tok.ident "p", Tok.punct "+", Tok.num 1]

/-- The argument `1`. -/
def argOne : Arg := [Tok.num 1]

/-- The argument `PyTruffle_Err_Format`, the name of the function declared at line 147. -/
def argErrFormat : Arg := [Tok.ident "PyTruffle_Err_Format"]

/-- The argument `log_error`, a name the header does not define. -/
def argLogError : Arg := [Tok.ident "log_error"]

/-- A format followed by eleven trailing arguments: `"%d"`, `1`, nine times `p`, and last
`PyTruffle_Err_Format`. -/
def elevenTrailing : List Arg :=
  [[Tok.str "%d"], argOne, argP, argP, argP, argP, argP, argP, argP, argP, argP, argErrFormat]

/-- Ten trailing arguments `p`. -/
def tenTrailing : List Arg := [argP, argP, argP, argP, argP, argP, argP, argP, argP, argP]

/-- Twelve trailing arguments: ten times `p`, then `log_error`, then `1`. -/
def twelveTrailing : List Arg :=
  [argP, argP, argP, argP, argP, argP, argP, argP, argP, argP, argLogError, argOne]

/-- A semantics of caller code under which evaluating any caller expression empties the
handle table. -/
def clearingSem : List Tok → HandleTable String → HandleTable String × Int :=
  fun _ _ => (HandleTable.empty String, 1)

/-! ## Auxiliary facts -/

/-- `ARG_PARSE_ERR_FORMAT_IMPL` returns its twelfth argument. -/
theorem ARG_PARSE_ERR_FORMAT_IMPL_eq_getElem? (l : List Arg) :
    ARG_PARSE_ERR_FORMAT_IMPL l = l[11]? := by
  rcases l with _ | ⟨x0, _ | ⟨x1, _ | ⟨x2, _ | ⟨x3, _ | ⟨x4, _ | ⟨x5, _ | ⟨x6, _ | ⟨x7, _ |
    ⟨x8, _ | ⟨x9, _ | ⟨x10, _ | ⟨x11, l⟩⟩⟩⟩⟩⟩⟩⟩⟩⟩⟩⟩ <;> simp [ARG_PARSE_ERR_FORMAT_IMPL]

/-- A variable part that is not empty is passed on as it is. -/
theorem vaArgs_cons (a : Arg) (l : List Arg) : vaArgs (a :: l) = a :: l := rfl

/-- Position `10 - k` of the list of names holds the name of arity `k`. -/
theorem entryPointNames_getElem? (k : Nat) (hk : k ≤ 10) :
    entryPointNames[10 - k]? = some [Tok.ident (entryPointName k)] := by
  interval_cases k <;> rfl

/-- With at most ten trailing arguments the twelfth argument is one of the names. -/
theorem dispatch_of_le (FORMAT : Arg) (as : List Arg) (h : as.length ≤ 10) :
    dispatch (FORMAT :: as) = some [Tok.ident (entryPointName as.length)] := by
  unfold dispatch
  rw [vaArgs_cons, ARG_PARSE_ERR_FORMAT_IMPL_eq_getElem?,
    List.getElem?_append_right (by simp; omega)]
  have hpos : 11 - (FORMAT :: as).length = 10 - as.length := by simp
  rw [hpos]
  exact entryPointNames_getElem? _ h

/-- With eleven or more trailing arguments the twelfth argument is the caller's, whatever
is written after the variable arguments. -/
theorem dispatch_of_ge (FORMAT : Arg) (as : List Arg) (h : 11 ≤ as.length) (names : List Arg) :
    ARG_PARSE_ERR_FORMAT_IMPL (vaArgs (FORMAT :: as) ++ names) = as[10]? := by
  rw [vaArgs_cons, ARG_PARSE_ERR_FORMAT_IMPL_eq_getElem?,
    List.getElem?_append_left (by simp; omega)]
  simp

/-- When the first slots of a call carry the arguments `vs` in order, slot `i` carries
the `i`-th of them. -/
theorem slot_of_carried (vs : List Arg) (c : CallExpr)
    (hc : (c.slots.take vs.length).map Operand.carried = vs.map some)
    (hl : vs.length ≤ c.slots.length) (i : Nat) (h1 : 1 ≤ i) (hi : i ≤ vs.length) :
    ∃ op v, c.slot i = some op ∧ vs[i - 1]? = some v ∧ op.carried = some v := by
  have hlt : i - 1 < vs.length := by omega
  have h2 := congrArg (fun l => l[i - 1]?) hc
  simp only [List.getElem?_map, List.getElem?_take] at h2
  rw [if_pos hlt] at h2
  have hs : c.slot i = c.slots[i - 1]? := by
    unfold CallExpr.slot
    rw [if_neg (by omega)]
  rw [hs]
  rw [List.getElem?_eq_getElem (by omega : i - 1 < c.slots.length)] at h2 ⊢
  rw [List.getElem?_eq_getElem hlt] at h2 ⊢
  simp at h2
  exact ⟨_, _, rfl, rfl, h2⟩

/-- No function-like macro of the header accepts thirteen arguments. -/
theorem headerFunctionLike_thirteen (f : String) (m : List Arg → Option Replacement)
    (hm : headerFunctionLike f = some m) (args : List Arg) (h : args.length = 13) :
    m args = none := by
  rcases args with _ | ⟨x0, _ | ⟨x1, _ | ⟨x2, _ | ⟨x3, _ | ⟨x4, _ | ⟨x5, _ | ⟨x6, _ | ⟨x7, _ |
    ⟨x8, _ | ⟨x9, _ | ⟨x10, _ | ⟨x11, _ | ⟨x12, _ | ⟨x13, l⟩⟩⟩⟩⟩⟩⟩⟩⟩⟩⟩⟩⟩⟩ <;>
    simp at h
  unfold headerFunctionLike at hm
  split at hm <;> simp at hm <;> subst hm <;> rfl

/-- Rescanning a name applied to thirteen arguments: a diagnosis exactly when the name ends in
a function-like macro of the header, and the untouched application otherwise. -/
theorem rescan_thirteen (NAME : Arg) (args : List Arg) (h : args.length = 13) :
    (rescan NAME args = .error ∧
        ∃ f m, NAME.getLast? = some (Tok.ident f) ∧ headerFunctionLike f = some m) ∨
      (rescan NAME args = .applied NAME args ∧
        ¬ ∃ f m, NAME.getLast? = some (Tok.ident f) ∧ headerFunctionLike f = some m) := by
  unfold rescan
  split
  · rename_i f hf
    split
    · rename_i m hm
      rw [headerFunctionLike_thirteen f m hm args h]
      exact Or.inl ⟨rfl, f, m, hf, hm⟩
    · rename_i hm
      refine Or.inr ⟨rfl, ?_⟩
      rintro ⟨f', m', hf', hm'⟩
      rw [hf] at hf'
      injection hf' with hf'
      injection hf' with hf'
      subst hf'
      rw [hm] at hm'
      exact absurd hm' (by simp)
  · rename_i hne
    refine Or.inr ⟨rfl, ?_⟩
    rintro ⟨f', m', hf', -⟩
    exact hne f' hf'

/-- An integer constant used as a statement leaves every state as it is. -/
theorem execStmt_num {σ : Type} (sem : List Tok → σ → σ × Int) (n : Nat) (s : σ) :
    execStmt sem [Tok.num n] s = s := rfl

/-- Any sequence of the two reference count statements leaves every state as it is. -/
theorem runLifecycle_eq {σ : Type} (sem : List Tok → σ → σ × Int) (h : Arg)
    (ops : List LifecycleOp) (s : σ) : runLifecycle sem h ops s = s := by
  unfold runLifecycle
  induction ops generalizing s with
  | nil => rfl
  | cons op ops ih =>
    rw [List.foldl_cons]
    cases op
    · exact ih s
    · exact ih s

/-- Every value slot of every entry point except the tenth slot of arity 10 is the cast of
the parenthesised argument. -/
theorem entryPoint_slots_parenthesised (EXC FORMAT : Arg) (vs : List Arg)
    (h : vs.length ≤ 10) :
    ∃ c, entryPoint vs.length (EXC :: FORMAT :: vs) = some c ∧
      c.slots.take (min vs.length 9) = (vs.take 9).map Operand.castParen := by
  rcases vs with _ | ⟨v1, _ | ⟨v2, _ | ⟨v3, _ | ⟨v4, _ | ⟨v5, _ | ⟨v6, _ | ⟨v7, _ | ⟨v8, _ |
    ⟨v9, _ | ⟨v10, _ | ⟨v11, vs⟩⟩⟩⟩⟩⟩⟩⟩⟩⟩⟩
  all_goals first
    | exact ⟨_, rfl, rfl⟩
    | (exfalso; simp at h)

/-- The complete expansion of `PyErr_Format` with at most ten trailing arguments is the call
emitted by the entry point of that arity; its shape. -/
theorem expandPyErr_Format_of_le (EXC FORMAT : Arg) (as : List Arg) (h : as.length ≤ 10) :
    ∃ c, expandPyErr_Format EXC (FORMAT :: as) = .replaced [] (.call c) ∧
      entryPoint as.length (EXC :: FORMAT :: as) = some c ∧
      c.callee = "PyTruffle_Err_Format" ∧
      c.slots.length = 10 ∧
      c.count = some (.intLit as.length) ∧
      c.slots.drop as.length = List.replicate (10 - as.length) Operand.null := by
  rcases as with _ | ⟨v1, _ | ⟨v2, _ | ⟨v3, _ | ⟨v4, _ | ⟨v5, _ | ⟨v6, _ | ⟨v7, _ | ⟨v8, _ |
    ⟨v9, _ | ⟨v10, _ | ⟨v11, vs⟩⟩⟩⟩⟩⟩⟩⟩⟩⟩⟩
  all_goals first
    | exact ⟨_, rfl, rfl, rfl, rfl, rfl, rfl⟩
    | (exfalso; simp at h)

/-- When the slots after position `n` of a call are ten minus `n` times `NULL`, each slot
`j` with `n < j ≤ 10` is `NULL`. -/
theorem slot_of_drop (c : CallExpr) (n : Nat)
    (hdrop : c.slots.drop n = List.replicate (10 - n) Operand.null) (j : Nat)
    (h1 : n < j) (h2 : j ≤ 10) : c.slot j = some .null := by
  have hs : c.slot j = c.slots[j - 1]? := by
    unfold CallExpr.slot
    rw [if_neg (by omega)]
  have h3 := congrArg (fun l => l[j - 1 - n]?) hdrop
  simp only [List.getElem?_drop] at h3
  rw [show n + (j - 1 - n) = j - 1 by omega] at h3
  rw [hs, h3, List.getElem?_replicate, if_pos (by omega)]

/-! ## Selection of the entry point -/

/-- Claim C1.  For a call `PyErr_Format(EXC, FORMAT, a1, .., an)` with `n` from 0 to 10
trailing arguments after the format, `ARG_PARSE_ERR_FORMAT_IMPL` applied to the variable
arguments followed by the names `PyTruffle_Err_Format_10` down to `PyTruffle_Err_Format_0`
selects the name `PyTruffle_Err_Format_n`, so that the replacement of `PyErr_Format` is
that name applied to `(EXC, FORMAT, a1, .., an)`; and any other call with the same number
of trailing arguments selects the same name, whatever its arguments are. -/
theorem dispatch_selects_by_count (EXC FORMAT : Arg) (as : List Arg) (h : as.length ≤ 10) :
    dispatch (FORMAT :: as) = some [Tok.ident (entryPointName as.length)] ∧
    PyErr_Format EXC (FORMAT :: as)
      = some ([Tok.ident (entryPointName as.length)], EXC :: FORMAT :: as) ∧
    ∀ (FORMAT' : Arg) (bs : List Arg), bs.length = as.length →
      dispatch (FORMAT' :: bs) = dispatch (FORMAT :: as) := by
  refine ⟨dispatch_of_le FORMAT as h, ?_, ?_⟩
  · simp [PyErr_Format, dispatch_of_le FORMAT as h, vaArgs_cons]
  · intro FORMAT' bs hb
    rw [dispatch_of_le FORMAT as h, dispatch_of_le FORMAT' bs (hb ▸ h), hb]

/-- Witness of C1 at `PyErr_Format(PyExc_TypeError, "expected %s, got %s", "int", "str")`:
two trailing arguments select `PyTruffle_Err_Format_2`, as do the two arguments `p`, `1`. -/
theorem dispatch_selects_by_count_witness :
    [strInt, strStr].length ≤ 10 ∧
    dispatch [expectedGot, strInt, strStr] = some [Tok.ident "PyTruffle_Err_Format_2"] ∧
    PyErr_Format PyExc_TypeError [expectedGot, strInt, strStr]
      = some ([Tok.ident "PyTruffle_Err_Format_2"],
          [PyExc_TypeError, expectedGot, strInt, strStr]) ∧
    dispatch [expectedGot, argP, argOne] = dispatch [expectedGot, strInt, strStr] :=
  have w := dispatch_selects_by_count PyExc_TypeError expectedGot [strInt, strStr] (by decide)
  ⟨by decide, w.1, w.2.1, w.2.2 expectedGot [argP, argOne] rfl⟩

/-! ## The entry points -/

/-- Claim C2.  For every `k` from 0 to 10, `PyTruffle_Err_Format_k(EXC, FORMAT, V1, .., Vk)`
is replaced by one call of `PyTruffle_Err_Format` with thirteen operands whose first operand
is `EXC`, whose second operand is `FORMAT`, whose count operand is the constant `k`, and whose
value slot `i` is built from the `i`-th supplied argument `Vi` for every `1 ≤ i ≤ k`, in the
original order. -/
theorem entryPoint_forwards (EXC FORMAT : Arg) (vs : List Arg) (h : vs.length ≤ 10) :
    ∃ c, entryPoint vs.length (EXC :: FORMAT :: vs) = some c ∧
      c.callee = "PyTruffle_Err_Format" ∧
      c.operands.length = 13 ∧
      c.exc = some (.verbatim EXC) ∧
      c.fmt = some (.verbatim FORMAT) ∧
      c.count = some (.intLit vs.length) ∧
      (c.slots.take vs.length).map Operand.carried = vs.map some ∧
      ∀ i, 1 ≤ i → i ≤ vs.length →
        ∃ op v, c.slot i = some op ∧ vs[i - 1]? = some v ∧ op.carried = some v := by
  have key : ∃ c, entryPoint vs.length (EXC :: FORMAT :: vs) = some c ∧
      c.callee = "PyTruffle_Err_Format" ∧ c.operands.length = 13 ∧
      c.exc = some (.verbatim EXC) ∧ c.fmt = some (.verbatim FORMAT) ∧
      c.count = some (.intLit vs.length) ∧
      (c.slots.take vs.length).map Operand.carried = vs.map some ∧
      c.slots.length = 10 := by
    rcases vs with _ | ⟨v1, _ | ⟨v2, _ | ⟨v3, _ | ⟨v4, _ | ⟨v5, _ | ⟨v6, _ | ⟨v7, _ | ⟨v8, _ |
      ⟨v9, _ | ⟨v10, _ | ⟨v11, vs⟩⟩⟩⟩⟩⟩⟩⟩⟩⟩⟩
    all_goals first
      | exact ⟨_, rfl, rfl, rfl, rfl, rfl, rfl, rfl, rfl⟩
      | (exfalso; simp at h)
  obtain ⟨c, h1, h2, h3, h4, h5, h6, h7, h8⟩ := key
  exact ⟨c, h1, h2, h3, h4, h5, h6, h7, slot_of_carried vs c h7 (by omega)⟩

/-- Witness of C2 at arity 2 with `PyExc_TypeError`, `"expected %s, got %s"`, `"int"`,
`"str"`: the count is 2, slot 1 carries `"int"` and slot 2 carries `"str"`. -/
theorem entryPoint_forwards_witness :
    [strInt, strStr].length ≤ 10 ∧
    ∃ c, entryPoint 2 [PyExc_TypeError, expectedGot, strInt, strStr] = some c ∧
      c.callee = "PyTruffle_Err_Format" ∧
      c.operands.length = 13 ∧
      c.exc = some (.verbatim PyExc_TypeError) ∧
      c.fmt = some (.verbatim expectedGot) ∧
      c.count = some (.intLit 2) ∧
      (c.slots.take 2).map Operand.carried = [some strInt, some strStr] ∧
      ∀ i, 1 ≤ i → i ≤ 2 →
        ∃ op v, c.slot i = some op ∧ [strInt, strStr][i - 1]? = some v ∧ op.carried = some v :=
  ⟨by decide, entryPoint_forwards PyExc_TypeError expectedGot [strInt, strStr] (by decide)⟩

/-- Claim C3.  Every call of `PyTruffle_Err_Format` that `PyErr_Format` emits for 0 to 10
trailing arguments, which is the call the entry point of that arity emits, has exactly ten
value slots, a count operand equal to the number of trailing arguments and so at most 10,
and the operand `NULL` in every slot after the count, where no argument of the caller
appears. -/
theorem emitted_call_is_bounded (EXC FORMAT : Arg) (as : List Arg) (h : as.length ≤ 10) :
    ∃ c, expandPyErr_Format EXC (FORMAT :: as) = .replaced [] (.call c) ∧
      entryPoint as.length (EXC :: FORMAT :: as) = some c ∧
      c.callee = "PyTruffle_Err_Format" ∧
      c.slots.length = 10 ∧
      c.count = some (.intLit as.length) ∧
      as.length ≤ 10 ∧
      c.slots.drop as.length = List.replicate (10 - as.length) Operand.null ∧
      ∀ j, as.length < j → j ≤ 10 → c.slot j = some .null := by
  obtain ⟨c, h1, h2, h3, h4, h5, h6⟩ := expandPyErr_Format_of_le EXC FORMAT as h
  exact ⟨c, h1, h2, h3, h4, h5, h, h6, slot_of_drop c as.length h6⟩

/-- Witness of C3 at `PyErr_Format(PyExc_TypeError, "expected %s, got %s", "int", "str")`:
the emitted call has count 2 and `NULL` in slots 3 to 10. -/
theorem emitted_call_is_bounded_witness :
    [strInt, strStr].length ≤ 10 ∧
    ∃ c, expandPyErr_Format PyExc_TypeError [expectedGot, strInt, strStr]
        = .replaced [] (.call c) ∧
      entryPoint 2 [PyExc_TypeError, expectedGot, strInt, strStr] = some c ∧
      c.callee = "PyTruffle_Err_Format" ∧
      c.slots.length = 10 ∧
      c.count = some (.intLit 2) ∧
      2 ≤ 10 ∧
      c.slots.drop 2 = List.replicate 8 Operand.null ∧
      ∀ j, 2 < j → j ≤ 10 → c.slot j = some .null :=
  ⟨by decide, emitted_call_is_bounded PyExc_TypeError expectedGot [strInt, strStr] (by decide)⟩

/-! ## The arity boundary -/

/-- Claim C5, refuted as stated.  The call
`PyErr_Format(PyExc_TypeError, "%d", 1, p, p, p, p, p, p, p, p, p, PyTruffle_Err_Format)` has
eleven trailing arguments.  The preprocessor does not diagnose it: the expansion is the
eleventh trailing argument applied to all the arguments, that is a call of the function
declared at line 147 with as many arguments as it has parameters. -/
theorem eleven_arguments_reach_the_compiler :
    elevenTrailing.length = 12 ∧
    expandPyErr_Format PyExc_TypeError elevenTrailing ≠ .error ∧
    expandPyErr_Format PyExc_TypeError elevenTrailing
      = .applied argErrFormat (PyExc_TypeError :: elevenTrailing) ∧
    callsDeclaredFunction (expandPyErr_Format PyExc_TypeError elevenTrailing) = true := by
  decide

/-- Claim C5, amended.  With exactly 10 trailing arguments `PyErr_Format` expands to the call
emitted by the arity-10 entry point.  With 11 trailing arguments the dispatch selects the
caller's own eleventh trailing argument `a11`; the expansion is diagnosed by the preprocessor
exactly when `a11` ends in the name of a function-like macro of the header (which then
receives thirteen arguments), and otherwise it is `a11` applied to `EXC`, `FORMAT` and all
eleven trailing arguments.  In neither case is an entry point expanded, so no call of
`PyTruffle_Err_Format` with only a part of the arguments is produced. -/
theorem arity_boundary (EXC FORMAT : Arg) (as10 as11 : List Arg)
    (h10 : as10.length = 10) (h11 : as11.length = 11) :
    (∃ c, entryPoint 10 (EXC :: FORMAT :: as10) = some c ∧
      expandPyErr_Format EXC (FORMAT :: as10) = .replaced [] (.call c)) ∧
    (∃ a11, as11[10]? = some a11 ∧
      dispatch (FORMAT :: as11) = some a11 ∧
      ((expandPyErr_Format EXC (FORMAT :: as11) = .error ∧
          ∃ f m, a11.getLast? = some (Tok.ident f) ∧ headerFunctionLike f = some m) ∨
        (expandPyErr_Format EXC (FORMAT :: as11) = .applied a11 (EXC :: FORMAT :: as11) ∧
          ¬ ∃ f m, a11.getLast? = some (Tok.ident f) ∧ headerFunctionLike f = some m)) ∧
      ∀ pre r, expandPyErr_Format EXC (FORMAT :: as11) ≠ .replaced pre r) := by
  constructor
  · obtain ⟨c, hc, he, -⟩ := expandPyErr_Format_of_le EXC FORMAT as10 (by omega)
    rw [h10] at he
    exact ⟨c, he, hc⟩
  · have hlt : 10 < as11.length := by omega
    have hsel : dispatch (FORMAT :: as11) = some (as11[10]) := by
      unfold dispatch
      rw [dispatch_of_ge FORMAT as11 (by omega), List.getElem?_eq_getElem hlt]
    have hexp : expandPyErr_Format EXC (FORMAT :: as11)
        = rescan (as11[10]) (EXC :: FORMAT :: as11) := by
      simp [expandPyErr_Format, PyErr_Format, hsel, vaArgs_cons]
    have hres := rescan_thirteen (as11[10]) (EXC :: FORMAT :: as11) (by simp [h11])
    refine ⟨as11[10], List.getElem?_eq_getElem hlt, hsel, ?_, ?_⟩
    · rw [hexp]
      exact hres
    · intro pre r hr
      rw [hexp] at hr
      rcases hres with ⟨he, -⟩ | ⟨he, -⟩ <;> rw [he] at hr <;> exact absurd hr (by simp)

/-- Witness of the amended C5: ten trailing arguments `p`, and the eleven trailing arguments
`1`, nine times `p`, `PyTruffle_Err_Format`. -/
theorem arity_boundary_witness :
    tenTrailing.length = 10 ∧ elevenTrailing.tail.length = 11 ∧
    (∃ c, entryPoint 10 (PyExc_TypeError :: expectedGot :: tenTrailing) = some c ∧
      expandPyErr_Format PyExc_TypeError (expectedGot :: tenTrailing)
        = .replaced [] (.call c)) ∧
    (∃ a11, elevenTrailing.tail[10]? = some a11 ∧
      dispatch (expectedGot :: elevenTrailing.tail) = some a11 ∧
      ((expandPyErr_Format PyExc_TypeError (expectedGot :: elevenTrailing.tail) = .error ∧
          ∃ f m, a11.getLast? = some (Tok.ident f) ∧ headerFunctionLike f = some m) ∨
        (expandPyErr_Format PyExc_TypeError (expectedGot :: elevenTrailing.tail)
            = .applied a11 (PyExc_TypeError :: expectedGot :: elevenTrailing.tail) ∧
          ¬ ∃ f m, a11.getLast? = some (Tok.ident f) ∧ headerFunctionLike f = some m)) ∧
      ∀ pre r, expandPyErr_Format PyExc_TypeError (expectedGot :: elevenTrailing.tail)
        ≠ .replaced pre r) :=
  have w := arity_boundary PyExc_TypeError expectedGot tenTrailing elevenTrailing.tail
    (by decide) (by decide)
  ⟨by decide, by decide, w.1, w.2⟩

/-- Claim C8.  For a call `PyErr_Format(EXC, FORMAT, a1, .., an)` with `n ≥ 11` trailing
arguments, the name `ARG_PARSE_ERR_FORMAT_IMPL` selects is the caller's own eleventh trailing
argument `a11`, the twelfth element of the variable arguments.  The selection does not come
from the names written after the variable arguments: it is the same whatever stands there.
The replacement of `PyErr_Format` is `a11` applied to `EXC` followed by all the original
arguments, unchanged. -/
theorem overflow_selects_caller_argument (EXC FORMAT : Arg) (as : List Arg)
    (h : 11 ≤ as.length) :
    ∃ a11, as[10]? = some a11 ∧
      (FORMAT :: as)[11]? = some a11 ∧
      dispatch (FORMAT :: as) = some a11 ∧
      (∀ names : List Arg,
        ARG_PARSE_ERR_FORMAT_IMPL (vaArgs (FORMAT :: as) ++ names) = some a11) ∧
      PyErr_Format EXC (FORMAT :: as) = some (a11, EXC :: FORMAT :: as) := by
  have hlt : 10 < as.length := by omega
  have hget : as[10]? = some (as[10]) := List.getElem?_eq_getElem hlt
  have hsel : ∀ names : List Arg,
      ARG_PARSE_ERR_FORMAT_IMPL (vaArgs (FORMAT :: as) ++ names) = some (as[10]) := by
    intro names
    rw [dispatch_of_ge FORMAT as h names, hget]
  have hd : dispatch (FORMAT :: as) = some (as[10]) := hsel entryPointNames
  refine ⟨as[10], hget, by simp [hget], hd, hsel, ?_⟩
  simp [PyErr_Format, hd, vaArgs_cons]

/-- Witness of C8 at twelve trailing arguments, the eleventh being `log_error`. -/
theorem overflow_selects_caller_argument_witness :
    11 ≤ twelveTrailing.length ∧
    ∃ a11, twelveTrailing[10]? = some a11 ∧
      (expectedGot :: twelveTrailing)[11]? = some a11 ∧
      dispatch (expectedGot :: twelveTrailing) = some a11 ∧
      (∀ names : List Arg,
        ARG_PARSE_ERR_FORMAT_IMPL (vaArgs (expectedGot :: twelveTrailing) ++ names)
          = some a11) ∧
      PyErr_Format PyExc_TypeError (expectedGot :: twelveTrailing)
        = some (a11, PyExc_TypeError :: expectedGot :: twelveTrailing) :=
  ⟨by decide,
    overflow_selects_caller_argument PyExc_TypeError expectedGot twelveTrailing (by decide)⟩

/-! ## Parenthesised casts -/

/-- Claim C7, evaluated where it fails.  In `PyTruffle_Err_Format_10` with tenth argument
`p + 1`, slot 9 (given the same argument) is the cast of the parenthesised argument,
`(void*)(p + 1)`, but slot 10 is `(void*)p + 1`: the cast is followed by the bare tokens of
the argument, so it applies to `p` alone. -/
theorem arity10_last_slot_is_bare :
    (PyTruffle_Err_Format_10 PyExc_TypeError expectedGot argP argP argP argP argP argP argP argP
        pPlusOne pPlusOne).slot 9 = some (.castParen pPlusOne) ∧
    (PyTruffle_Err_Format_10 PyExc_TypeError expectedGot argP argP argP argP argP argP argP argP
        pPlusOne pPlusOne).slot 10 = some (.castBare pPlusOne) ∧
    (PyTruffle_Err_Format_10 PyExc_TypeError expectedGot argP argP argP argP argP argP argP argP
        pPlusOne pPlusOne).slot 10 ≠ some (.castParen pPlusOne) ∧
    (Operand.castBare pPlusOne).tokens
      = [Tok.punct "(", Tok.ident "void", Tok.punct "*", Tok.punct ")",
         Tok.ident "p", Tok.punct "+", Tok.num 1] ∧
    (Operand.castParen pPlusOne).tokens
      = [Tok.punct "(", Tok.ident "void", Tok.punct "*", Tok.punct ")",
         Tok.punct "(", Tok.ident "p", Tok.punct "+", Tok.num 1, Tok.punct ")"] := by
  decide

/-! ## Reference counting -/

/-- Claim C9.  For every argument expression `o`, `Py_INCREF(o)` and `Py_DECREF(o)` are both
replaced by the constant `0`: the replacement is the same for any two arguments, and
evaluating it yields 0 and leaves every program state as it was, whatever effect and value
the caller's expressions (among them `o`) have, so the argument is not evaluated and no
reference count is read or written. -/
theorem refcount_macros_are_constant (o o' : Arg) :
    Py_INCREF o = [Tok.num 0] ∧ Py_DECREF o = [Tok.num 0] ∧
    Py_INCREF o = Py_INCREF o' ∧ Py_DECREF o = Py_DECREF o' ∧
    ∀ (σ : Type) (sem : List Tok → σ → σ × Int) (s : σ),
      evalExpr sem (Py_INCREF o) s = (s, 0) ∧ evalExpr sem (Py_DECREF o) s = (s, 0) :=
  ⟨rfl, rfl, rfl, rfl, fun _ _ _ => ⟨rfl, rfl⟩⟩

/-- Claim C4.  For every state of the handle table and every handle valid in it (one that
resolves to an object `o`), any finite sequence of `Py_INCREF(h)` and `Py_DECREF(h)`
statements leaves the state unchanged, whatever the caller's expressions do when evaluated;
resolving the handle afterwards still succeeds and returns `o`. -/
theorem lifecycle_preserves_resolution {Obj : Type}
    (sem : List Tok → HandleTable Obj → HandleTable Obj × Int) (t : HandleTable Obj)
    (hd : Handle) (o : Obj) (hvalid : resolve t hd = .ok o) (h : Arg)
    (ops : List LifecycleOp) :
    runLifecycle sem h ops t = t ∧ resolve (runLifecycle sem h ops t) hd = .ok o := by
  rw [runLifecycle_eq]
  exact ⟨rfl, hvalid⟩

/-- Witness of C4: register `"A"` in the empty table to get `h1`, then three `Py_INCREF(h1)`
and two `Py_DECREF(h1)`; `h1` still resolves to `"A"`, even under a semantics where the
evaluation of any caller expression would empty the table. -/
theorem lifecycle_preserves_resolution_witness :
    resolve (register (HandleTable.empty String) "A").2
        (register (HandleTable.empty String) "A").1 = .ok "A" ∧
    runLifecycle clearingSem [Tok.ident "h1"]
        [.acquire, .acquire, .acquire, .release_ref, .release_ref]
        (register (HandleTable.empty String) "A").2
      = (register (HandleTable.empty String) "A").2 ∧
    resolve
        (runLifecycle clearingSem [Tok.ident "h1"]
          [.acquire, .acquire, .acquire, .release_ref, .release_ref]
          (register (HandleTable.empty String) "A").2)
        (register (HandleTable.empty String) "A").1 = .ok "A" :=
  have w := lifecycle_preserves_resolution clearingSem
    (register (HandleTable.empty String) "A").2 (register (HandleTable.empty String) "A").1
    "A" rfl [Tok.ident "h1"] [.acquire, .acquire, .acquire, .release_ref, .release_ref]
  ⟨rfl, w.1, w.2⟩

/-! ## The handle table -/

/-- Claim C6.  Handle round trip: for every table and every managed object `o`, resolving the
handle returned by registering `o` in the table after that registration yields `o`. -/
theorem handle_round_trip {Obj : Type} (t : HandleTable Obj) (o : Obj) :
    resolve (register t o).2 (register t o).1 = .ok o := by
  simp [register, resolve]

end PythonH
